import Mathlib

/-!
Verification of the polls application (`polls/models.py`, `polls/tests.py`).

Timestamps are modelled as integer seconds (`Int`); `datetime.timedelta(days=1)`
is `86400` seconds. Machine datetimes are totally ordered with second (indeed
microsecond) granularity, and every comparison in the source is an order
comparison, so `Int` is a faithful carrier.
-/

/-- One day in seconds: `datetime.timedelta(days=1)`. -/
def oneDay : Int := 86400

/-- `polls.models.Question`: `question_text` (CharField, max 200),
`pub_date` (DateTimeField, required, so non-null here),
`author_name` (CharField, nullable). -/
structure Question where
  question_text : String
  pub_date : Int
  author_name : Option String
deriving Repr, DecidableEq

/-- `Question.was_published_recently`:
`now - datetime.timedelta(days=1) <= self.pub_date <= now`. -/
def Question.was_published_recently (now : Int) (q : Question) : Bool :=
  decide (now - oneDay ≤ q.pub_date) && decide (q.pub_date ≤ now)

/-- `polls.models.Choice`: foreign key `question`, `choice_text` (CharField),
`votes` (IntegerField, a signed integer, `default=0`),
`pub_date` (DateTimeField, `null=True`, hence `Option`). -/
structure Choice where
  question : Int
  choice_text : String
  votes : Int
  pub_date : Option Int
deriving Repr, DecidableEq

/-- `Choice.was_published_recently`:
`self.pub_date is not None and now - datetime.timedelta(days=1) <= self.pub_date <= now`. -/
def Choice.was_published_recently (now : Int) (c : Choice) : Bool :=
  match c.pub_date with
  | none => false
  | some t => decide (now - oneDay ≤ t) && decide (t ≤ now)

/-- The `Question.was_published_recently` method as a state transformer: the
method body reads `self.pub_date` and returns the boolean; it contains no
assignment, so the object state is passed through unchanged. -/
def Question.run_was_published_recently (now : Int) (q : Question) : Bool × Question :=
  (q.was_published_recently now, q)

/-- The `Choice.was_published_recently` method as a state transformer: no
assignment occurs in the body, so the object state is passed through unchanged. -/
def Choice.run_was_published_recently (now : Int) (c : Choice) : Bool × Choice :=
  (c.was_published_recently now, c)

/-- The comparison chain of `Question.was_published_recently` evaluated on a
raw, possibly-null `pub_date`. In Python, `now - timedelta(days=1) <= None`
raises `TypeError`; the raising branch is modelled as `none`. -/
def Question.was_published_recently_unchecked (now : Int) (pub : Option Int) : Option Bool :=
  match pub with
  | none => none
  | some t => some (decide (now - oneDay ≤ t) && decide (t ≤ now))

/-- The full evaluation of `Choice.was_published_recently`, tracking whether
it can raise: `self.pub_date is not None` short-circuits the `and`, so the
comparison chain is only reached on a non-null timestamp and no branch
raises. -/
def Choice.eval_was_published_recently (now : Int) (c : Choice) : Option Bool :=
  match c.pub_date with
  | none => some false
  | some t => Question.was_published_recently_unchecked now (some t)

/-- Creating a `Choice` without specifying `votes`: the field declaration
`votes = models.IntegerField(default=0)` supplies the default value 0. -/
def Choice.create (question : Int) (text : String) (pub : Option Int) : Choice :=
  ⟨question, text, 0, pub⟩

/-- A stored `Question` row: the auto-assigned surrogate key `id` (assigned in
creation order, so insertion order is ascending `id`) plus the model fields. -/
structure QuestionRow where
  id : Int
  question_text : String
  pub_date : Int
  author_name : Option String
deriving Repr, DecidableEq

/-- The index ordering: descending `pub_date`, ties broken by ascending `id`
(insertion/creation order as the stable secondary key). -/
def rowBefore (a b : QuestionRow) : Prop :=
  b.pub_date < a.pub_date ∨ (a.pub_date = b.pub_date ∧ a.id ≤ b.id)

instance : DecidableRel rowBefore := fun a b => by
  unfold rowBefore
  infer_instance

instance : IsTotal QuestionRow rowBefore :=
  ⟨by
    intro a b
    unfold rowBefore
    omega⟩

instance : IsTrans QuestionRow rowBefore :=
  ⟨by
    intro a b c hab hbc
    unfold rowBefore at hab hbc ⊢
    omega⟩

/-- Modelled from the spec: the index view's query (the view module is not in
the source excerpt). Per the spec it selects all Questions whose
`pub_date ≤ now` and orders them descending by `pub_date`, ties broken by
insertion/creation order as a stable secondary key. -/
def latest_question_list (now : Int) (db : List QuestionRow) : List QuestionRow :=
  List.insertionSort rowBefore (db.filter (fun q => decide (q.pub_date ≤ now)))

/-- An HTTP response: status code and body text. -/
structure HttpResponse where
  status : Int
  body : String
deriving Repr, DecidableEq

/-- The index view's response: status, body and the `latest_question_list`
context value. -/
structure IndexResponse where
  status : Int
  body : String
  latest_question_list : List QuestionRow
deriving Repr, DecidableEq

/-- Modelled from the spec: GET on the index view (the view module is not in
the source excerpt). Per the spec it returns 200 with the
`latest_question_list` context value, rendering the empty-state message
"No polls are available." when the result set is empty and the question texts
otherwise. -/
def indexView (now : Int) (db : List QuestionRow) : IndexResponse :=
  let l := latest_question_list now db
  ⟨200,
    if l.isEmpty then "No polls are available."
    else String.intercalate "\n" (l.map (fun q => q.question_text)),
    l⟩

/-- Modelled from the spec: GET on the detail view (the view module is not in
the source excerpt). Per the spec it fetches the Question by identity and
surfaces a 404 if it does not exist or its `pub_date` is in the future, even
though the row exists; otherwise it renders 200 with the question's text. -/
def detailView (now : Int) (db : List QuestionRow) (qid : Int) : HttpResponse :=
  match db.find? (fun q => decide (q.id = qid)) with
  | none => ⟨404, "Not Found"⟩
  | some q => if now < q.pub_date then ⟨404, "Not Found"⟩ else ⟨200, q.question_text⟩

/-- C1: for a non-null publish timestamp `t` and current instant `now`,
`Question.was_published_recently` is true iff `now - 1 day ≤ t ≤ now`;
exactly 24h in the past is true (inclusive lower bound), `t = now` is true
(inclusive upper bound), `now - 1 day - 1 s` is false, and every future
timestamp is false. -/
theorem question_recently_window (now t : Int) :
    (Question.was_published_recently now ⟨"", t, none⟩ = true ↔
      now - oneDay ≤ t ∧ t ≤ now) ∧
    Question.was_published_recently now ⟨"", now - oneDay, none⟩ = true ∧
    Question.was_published_recently now ⟨"", now, none⟩ = true ∧
    Question.was_published_recently now ⟨"", now - oneDay - 1, none⟩ = false ∧
    (now < t → Question.was_published_recently now ⟨"", t, none⟩ = false) := by
  refine ⟨?_, ?_, ?_, ?_, ?_⟩ <;>
    simp only [Question.was_published_recently, oneDay, Bool.and_eq_true, decide_eq_true_eq,
      Bool.and_eq_false_iff, decide_eq_false_iff_not, not_le] <;>
    omega

/-- Witness for C1 at `now = 1000000`, future timestamp `t = 1000001`. -/
theorem question_recently_window_witness :
    Question.was_published_recently 1000000 ⟨"", 1000001, none⟩ = false :=
  (question_recently_window 1000000 1000001).2.2.2.2 (by decide)

/-- C2: a `Choice` whose `pub_date` is null yields false from
`was_published_recently`, and the evaluation raises in no case: the
short-circuiting `is not None` guard means the possibly-raising comparison is
never reached, so the full evaluation always returns a value (`isSome`). -/
theorem choice_null_pub_date_false (now qid votes : Int) (text : String) :
    Choice.was_published_recently now ⟨qid, text, votes, none⟩ = false ∧
    Choice.eval_was_published_recently now ⟨qid, text, votes, none⟩ = some false ∧
    (∀ c : Choice, (Choice.eval_was_published_recently now c).isSome = true) := by
  refine ⟨rfl, rfl, ?_⟩
  intro c
  cases hc : c.pub_date <;>
    simp [Choice.eval_was_published_recently, Question.was_published_recently_unchecked, hc]

/-- C3: on a non-null timestamp `t` and the same `now`, the `Choice` and
`Question` recency predicates agree: the two methods are identical except for
the null check on `Choice`. -/
theorem choice_question_recently_agree (now qid votes t : Int) (ct qt : String)
    (a : Option String) :
    Choice.was_published_recently now ⟨qid, ct, votes, some t⟩ =
      Question.was_published_recently now ⟨qt, t, a⟩ := rfl

/-- C4: `was_published_recently` is pure and deterministic given `now`: the
result depends only on `pub_date` and `now` (two objects with the same
`pub_date` get the same boolean), and the evaluation leaves every field of the
object unchanged, for both `Question` and `Choice`. -/
theorem was_published_recently_pure (now : Int) (q q' : Question) (c c' : Choice)
    (hq : q.pub_date = q'.pub_date) (hc : c.pub_date = c'.pub_date) :
    (Question.run_was_published_recently now q).1 =
      (Question.run_was_published_recently now q').1 ∧
    (Question.run_was_published_recently now q).2 = q ∧
    (Choice.run_was_published_recently now c).1 =
      (Choice.run_was_published_recently now c').1 ∧
    (Choice.run_was_published_recently now c).2 = c := by
  refine ⟨?_, rfl, ?_, rfl⟩
  · simp [Question.run_was_published_recently, Question.was_published_recently, hq]
  · simp [Choice.run_was_published_recently, Choice.was_published_recently, hc]

/-- Witness for C4 at `now = 100`, two Questions sharing `pub_date = 50` and
two Choices sharing `pub_date = some 50`. -/
theorem was_published_recently_pure_witness :
    (Question.run_was_published_recently 100 ⟨"a", 50, none⟩).1 =
      (Question.run_was_published_recently 100 ⟨"b", 50, some "x"⟩).1 ∧
    (Question.run_was_published_recently 100 ⟨"a", 50, none⟩).2 = ⟨"a", 50, none⟩ ∧
    (Choice.run_was_published_recently 100 ⟨1, "a", 3, some 50⟩).1 =
      (Choice.run_was_published_recently 100 ⟨2, "b", 7, some 50⟩).1 ∧
    (Choice.run_was_published_recently 100 ⟨1, "a", 3, some 50⟩).2 = ⟨1, "a", 3, some 50⟩ :=
  was_published_recently_pure 100 ⟨"a", 50, none⟩ ⟨"b", 50, some "x"⟩
    ⟨1, "a", 3, some 50⟩ ⟨2, "b", 7, some 50⟩ rfl rfl

/-- C9: the comparison chain of `Question.was_published_recently` is a partial
operation: it errors (returns `none`) exactly when `pub_date` is null, and
under the precondition that `pub_date` is set it is total and agrees with the
`Question` predicate. -/
theorem question_recently_partial_on_null (now : Int) (pub : Option Int) :
    (Question.was_published_recently_unchecked now pub = none ↔ pub = none) ∧
    (∀ t, pub = some t →
      Question.was_published_recently_unchecked now pub =
        some (Question.was_published_recently now ⟨"", t, none⟩)) := by
  cases pub <;>
    simp [Question.was_published_recently_unchecked, Question.was_published_recently]

/-- Witness for C9 at `now = 100`, `pub = some 50`. -/
theorem question_recently_partial_on_null_witness :
    Question.was_published_recently_unchecked 100 (some 50) =
      some (Question.was_published_recently 100 ⟨"", 50, none⟩) :=
  (question_recently_partial_on_null 100 (some 50)).2 50 rfl

/-- C10: for a fixed `now`, the recency predicate is monotone on past
timestamps: if `t ≤ t' ≤ now` and the predicate holds at `t`, it holds at
`t'`, for both `Question` and `Choice`. -/
theorem was_published_recently_monotone (now t t' : Int) (h1 : t ≤ t') (h2 : t' ≤ now)
    (h3 : Question.was_published_recently now ⟨"", t, none⟩ = true) :
    Question.was_published_recently now ⟨"", t', none⟩ = true ∧
    Choice.was_published_recently now ⟨0, "", 0, some t'⟩ = true := by
  simp only [Question.was_published_recently, oneDay, Bool.and_eq_true,
    decide_eq_true_eq] at h3
  refine ⟨?_, ?_⟩ <;>
    simp only [Question.was_published_recently, Choice.was_published_recently, oneDay,
      Bool.and_eq_true, decide_eq_true_eq] <;>
    omega

/-- Witness for C10 at `now = 100000`, `t = 20000`, `t' = 30000` (the window
lower bound is `13600`). -/
theorem was_published_recently_monotone_witness :
    Question.was_published_recently 100000 ⟨"", 30000, none⟩ = true ∧
    Choice.was_published_recently 100000 ⟨0, "", 0, some 30000⟩ = true :=
  was_published_recently_monotone 100000 20000 30000 (by decide) (by decide) (by decide)

/-- Helper: in a list of rows with pairwise-distinct ids, a row is determined
by its id. -/
theorem pairwise_ne_id_unique {db : List QuestionRow}
    (h : db.Pairwise (fun a b => a.id ≠ b.id)) :
    ∀ a ∈ db, ∀ b ∈ db, a.id = b.id → a = b := by
  induction h with
  | nil => simp
  | cons hx _ ih =>
    intro a ha b hb heq
    rcases List.mem_cons.mp ha with ha' | ha'
    · rcases List.mem_cons.mp hb with hb' | hb'
      · rw [ha', hb']
      · subst ha'
        exact absurd heq (hx b hb')
    · rcases List.mem_cons.mp hb with hb' | hb'
      · subst hb'
        exact absurd heq.symm (hx a ha')
      · exact ih a ha' b hb' heq

/-- C5: the index listing contains exactly the Questions with `pub_date ≤ now`
(future-dated ones excluded), ordered descending by `pub_date` with ties
broken by creation order (`rowBefore`); with two questions dated `now - 30 d`
and `now - 5 d` the listing is `[now - 5 d, now - 30 d]`. -/
theorem index_listing_spec (now : Int) (db : List QuestionRow) :
    (∀ q, q ∈ latest_question_list now db ↔ q ∈ db ∧ q.pub_date ≤ now) ∧
    (latest_question_list now db).Pairwise rowBefore ∧
    latest_question_list now
        [⟨1, "Past question 1.", now - 2592000, none⟩,
         ⟨2, "Past question 2.", now - 432000, none⟩] =
      [⟨2, "Past question 2.", now - 432000, none⟩,
       ⟨1, "Past question 1.", now - 2592000, none⟩] := by
  refine ⟨?_, ?_, ?_⟩
  · intro q
    rw [latest_question_list, List.mem_insertionSort, List.mem_filter, decide_eq_true_eq]
  · exact List.sorted_insertionSort rowBefore _
  · have ha : decide ((now - 2592000 : Int) ≤ now) = true := decide_eq_true (by omega)
    have hb : decide ((now - 432000 : Int) ≤ now) = true := decide_eq_true (by omega)
    have hr : ¬ rowBefore ⟨1, "Past question 1.", now - 2592000, none⟩
        ⟨2, "Past question 2.", now - 432000, none⟩ := by
      unfold rowBefore
      simp only
      omega
    simp [latest_question_list, List.insertionSort, List.orderedInsert, ha, hb, hr]

/-- C6: when no published question exists (every stored question, if any, is
future-dated), the index view returns status 200, the body is the message
"No polls are available." and the `latest_question_list` context value is the
empty list. -/
theorem index_empty_state (now : Int) (db : List QuestionRow)
    (h : ∀ q ∈ db, now < q.pub_date) :
    (indexView now db).status = 200 ∧
    (indexView now db).body = "No polls are available." ∧
    (indexView now db).latest_question_list = [] := by
  have hfil : db.filter (fun q => decide (q.pub_date ≤ now)) = [] := by
    rw [List.filter_eq_nil_iff]
    intro a ha
    simpa using h a ha
  have hl : latest_question_list now db = [] := by
    rw [latest_question_list, hfil]
    rfl
  simp [indexView, hl]

/-- Witness for C6 with one future-dated question at `now = 3`. -/
theorem index_empty_state_witness :
    (indexView 3 [⟨1, "X", 5, none⟩]).status = 200 ∧
    (indexView 3 [⟨1, "X", 5, none⟩]).body = "No polls are available." ∧
    (indexView 3 [⟨1, "X", 5, none⟩]).latest_question_list = [] :=
  index_empty_state 3 [⟨1, "X", 5, none⟩] (by decide)

/-- C7: the detail view responds 404 exactly when no stored row has the
requested id with `pub_date ≤ now` (missing row, or existing but future-dated
row); otherwise it responds 200 with the question's text in the body; 404 and
200 are the only possible statuses. -/
theorem detail_view_spec (now qid : Int) (db : List QuestionRow)
    (hids : db.Pairwise (fun a b => a.id ≠ b.id)) :
    ((detailView now db qid).status = 404 ∨ (detailView now db qid).status = 200) ∧
    ((detailView now db qid).status = 404 ↔ ¬ ∃ q ∈ db, q.id = qid ∧ q.pub_date ≤ now) ∧
    (∀ q ∈ db, q.id = qid → q.pub_date ≤ now →
      (detailView now db qid).status = 200 ∧
      (detailView now db qid).body = q.question_text) := by
  have huniq := pairwise_ne_id_unique hids
  cases hfind : db.find? (fun q => decide (q.id = qid)) with
  | none =>
    have hnone : ∀ q ∈ db, q.id ≠ qid := by
      have hn := List.find?_eq_none.mp hfind
      intro q hq
      simpa using hn q hq
    have hd : detailView now db qid = ⟨404, "Not Found"⟩ := by
      rw [detailView, hfind]
    refine ⟨Or.inl (by rw [hd]), ?_, ?_⟩
    · rw [hd]
      simp only [true_iff]
      rintro ⟨q, hq, hqid, -⟩
      exact hnone q hq hqid
    · intro q hq hqid _
      exact absurd hqid (hnone q hq)
  | some q0 =>
    have hq0mem : q0 ∈ db := List.mem_of_find?_eq_some hfind
    have hq0id : q0.id = qid := by
      have := List.find?_some hfind
      simpa using this
    by_cases hfut : now < q0.pub_date
    · have hd : detailView now db qid = ⟨404, "Not Found"⟩ := by
        rw [detailView, hfind]
        simp [hfut]
      refine ⟨Or.inl (by rw [hd]), ?_, ?_⟩
      · rw [hd]
        simp only [true_iff]
        rintro ⟨q, hq, hqid, hpub⟩
        have : q = q0 := huniq q hq q0 hq0mem (by rw [hqid, hq0id])
        subst this
        omega
      · intro q hq hqid hpub
        have : q = q0 := huniq q hq q0 hq0mem (by rw [hqid, hq0id])
        subst this
        omega
    · have hd : detailView now db qid = ⟨200, q0.question_text⟩ := by
        rw [detailView, hfind]
        simp [hfut]
      refine ⟨Or.inr (by rw [hd]), ?_, ?_⟩
      · rw [hd]
        constructor
        · intro h200
          exact absurd (show (200 : Int) = 404 from h200) (by decide)
        · intro hne
          exact absurd ⟨q0, hq0mem, hq0id, by omega⟩ hne
      · intro q hq hqid hpub
        have : q = q0 := huniq q hq q0 hq0mem (by rw [hqid, hq0id])
        subst this
        exact ⟨by rw [hd], by rw [hd]⟩

/-- Witness for C7: `db` has a past question (id 1) and a future question
(id 2); at `now = 10` the detail view for id 2 is a 404 even though the row
exists. -/
theorem detail_view_spec_witness :
    ((detailView 10 [⟨1, "A", 5, none⟩, ⟨2, "B", 50, none⟩] 2).status = 404 ∨
      (detailView 10 [⟨1, "A", 5, none⟩, ⟨2, "B", 50, none⟩] 2).status = 200) ∧
    ((detailView 10 [⟨1, "A", 5, none⟩, ⟨2, "B", 50, none⟩] 2).status = 404 ↔
      ¬ ∃ q ∈ [(⟨1, "A", 5, none⟩ : QuestionRow), ⟨2, "B", 50, none⟩],
        q.id = 2 ∧ q.pub_date ≤ 10) ∧
    (∀ q ∈ [(⟨1, "A", 5, none⟩ : QuestionRow), ⟨2, "B", 50, none⟩],
      q.id = 2 → q.pub_date ≤ 10 →
      (detailView 10 [⟨1, "A", 5, none⟩, ⟨2, "B", 50, none⟩] 2).status = 200 ∧
      (detailView 10 [⟨1, "A", 5, none⟩, ⟨2, "B", 50, none⟩] 2).body = q.question_text) :=
  detail_view_spec 10 2 [⟨1, "A", 5, none⟩, ⟨2, "B", 50, none⟩] (by decide)

/-- C8 counterexample: the claim "for every Choice, the votes field is a
non-negative integer" fails on the declared field type: `votes` is a plain
`IntegerField` (a signed integer), so a Choice whose `votes` is `-1` is a
value of the type. -/
theorem choice_votes_negative_example :
    (⟨1, "x", -1, none⟩ : Choice).votes = -1 ∧
    ¬ (0 ≤ (⟨1, "x", -1, none⟩ : Choice).votes) := by
  refine ⟨rfl, ?_⟩
  decide

/-- C8 amended: a Choice created without specifying `votes` has `votes = 0`
(hence non-negative), and no operation in this code changes `votes` (the only
operation, `was_published_recently`, leaves it unchanged), so no
code-performed operation makes `votes` negative. -/
theorem choice_votes_default_zero (question : Int) (text : String) (pub : Option Int)
    (now : Int) (c : Choice) :
    (Choice.create question text pub).votes = 0 ∧
    0 ≤ (Choice.create question text pub).votes ∧
    ((Choice.run_was_published_recently now c).2).votes = c.votes := by
  refine ⟨rfl, ?_, rfl⟩
  show (0 : Int) ≤ 0
  decide
